import Mathlib

/-!
Verification development for the Wildberries catalog front-end
(`ProductList`, `ProductDetail`, `SearchForm`, `ProductImages`, `ProductGallery`).

The JavaScript components are shallowly embedded: JSX conditional
expressions and `useState` updaters become pure Lean functions, optional
JSON fields become `Option`, JS numbers become `ℚ`, and JS truthiness of
a field is made explicit (`none` and `some 0` are falsy for numbers,
`none` and `some ""` for strings).
-/

/- JS `Math.round`: round half toward positive infinity. -/
def jsRound (q : ℚ) : ℤ := ⌊q + 1/2⌋

/- JS truthiness of an optional numeric field (`null`/`undefined` and `0` are falsy). -/
def truthyNum : Option ℚ → Bool
  | none => false
  | some q => q != 0

/- JS `String.prototype.trim`: strip leading and trailing whitespace, embedded
over the character list so that it evaluates by kernel reduction. -/
def jsTrim (s : String) : String :=
  ⟨((s.data.dropWhile Char.isWhitespace).reverse.dropWhile Char.isWhitespace).reverse⟩

/- JS truthiness of an optional string field (`null`/`undefined` and `''` are falsy). -/
def truthyStr : Option String → Bool
  | none => false
  | some s => s != ""

/-!
## Price rendering

`product.discount_price && product.discount_price < product.price` guards the
discounted-price branch in the card grid (ProductList.js lines 356-363 and the
unnamed ProductList revision lines 423-430), the detail price section
(ProductDetail.js lines 62-68 and 118-126) and the similar-products grid
(ProductDetail.js lines 187-194).  All three sites use the character-identical
expression, so one embedding serves them all.
-/

def showsDiscount (price : ℚ) (discount_price : Option ℚ) : Bool :=
  truthyNum discount_price && decide (discount_price.getD 0 < price)

/- The price rendered inside `current-price` at each of the three sites. -/
def displayedCurrentPrice (price : ℚ) (discount_price : Option ℚ) : ℚ :=
  if showsDiscount price discount_price then discount_price.getD price else price

/- ProductDetail.js lines 66-68: the `-{discountPercent}%` badge value. -/
def discountPercent (price : ℚ) (discount_price : Option ℚ) : ℤ :=
  if showsDiscount price discount_price then
    jsRound ((price - discount_price.getD 0) / price * 100)
  else 0

/- Modelled from the spec's words (refinement target for the displayed-price
claim): "displayed price equals `discount_price` when `discount_price` is
present and less than `price`, else `price`" — presence read as the optional
field holding a value. -/
def specDisplayedPrice (price : ℚ) (discount_price : Option ℚ) : ℚ :=
  match discount_price with
  | some d => if d < price then d else price
  | none => price

/-!
## Catalog list filter state (unnamed ProductList revision, part_003)

`formState` and `filters` share the same record shape (lines 11-34); string
fields default to `''`, numeric fields to numbers, `page` is attached later by
the query-parameter effect.
-/

structure ListFilters where
  search : String
  category : String
  min_price : ℚ
  max_price : ℚ
  min_rating : ℚ
  max_rating : ℚ
  min_reviews : String
  max_reviews : String
  sort : String
  limit : ℕ
  page : Option ℕ
deriving DecidableEq, Repr

/- The initial `filters`/`formState` value (part_003 lines 11-34). -/
def initialFilters : ListFilters :=
  { search := "", category := "", min_price := 0, max_price := 100000,
    min_rating := 0, max_rating := 5, min_reviews := "", max_reviews := "",
    sort := "-created_at", limit := 10, page := none }

structure PriceRange where
  min : ℚ
  max : ℚ
deriving DecidableEq, Repr

/-!
## Range-slider handlers (part_003 lines 297-359)

Each `onChange` reads `Number(e.target.value)`; the price handlers guard
`isNaN` (modelled as the `none` case of an `Option ℚ` input), the rating
handlers do not.  The moved bound is clamped to the opposing current bound;
the opposing bound itself is not written.
-/

def priceSliderMinChange (global : PriceRange) (v : Option ℚ) (prev : ListFilters) :
    ListFilters :=
  match v with
  | none => { prev with min_price := global.min }
  | some m => { prev with min_price := if m > prev.max_price then prev.max_price else m }

def priceSliderMaxChange (global : PriceRange) (v : Option ℚ) (prev : ListFilters) :
    ListFilters :=
  match v with
  | none => { prev with max_price := global.max }
  | some m => { prev with max_price := if m < prev.min_price then prev.min_price else m }

def ratingSliderMinChange (v : ℚ) (prev : ListFilters) : ListFilters :=
  { prev with min_rating := if v > prev.max_rating then prev.max_rating else v }

def ratingSliderMaxChange (v : ℚ) (prev : ListFilters) : ListFilters :=
  { prev with max_rating := if v < prev.min_rating then prev.min_rating else v }

/-!
## Applied-filter fetch effects (part_003)
-/

/- part_003 lines 204-209: `setFilters(prev => ({ ...prev, sort }))`. -/
def handleSortChange (sort : String) (prev : ListFilters) : ListFilters :=
  { prev with sort := sort }

/- part_003 lines 132-141: the guard inside `fetchProducts` testing JS falsiness
of the eight filter fields (in source order) before `setGlobalPriceRange`. -/
def noActiveFilterValues (f : ListFilters) : Bool :=
  f.min_price == 0 && f.max_price == 0 && f.category == "" && f.search == "" &&
  f.min_rating == 0 && f.max_rating == 0 && f.min_reviews == "" && f.max_reviews == ""

/- part_003 lines 129-144: on a product-list response, `globalPriceRange` is
rewritten from `response.data.price_range` only when the range is present and
the guard holds; otherwise it keeps its previous value. -/
def updateGlobalPriceRange (f : ListFilters) (price_range : Option PriceRange)
    (global : PriceRange) : PriceRange :=
  match price_range with
  | none => global
  | some r => if noActiveFilterValues f then r else global

/-!
## Fetch scheduling (temporal model)

ProductList.js lines 41-49: every change to `[filters, page]` arms a 250 ms
timer whose callback runs `fetchProducts(); fetchChartsData();`, and the
effect cleanup clears the pending timer — the fetch pair fires for a change
only when no further change arrives within the delay.  The unnamed revision
(part_003 lines 56-59) has no timer: the pair fires once per change.

A schedule is modelled as the increasing list of instants (ms) at which the
applied filter state changed.
-/

def debounceDelay : ℕ := 250

/- Fetch pairs issued by the part_003 effect: one per change. -/
def fetchPairsImmediate (changes : List ℕ) : ℕ := changes.length

/- Fetch pairs issued by the ProductList.js effect: a change's timer survives
iff the next change comes no sooner than `delay` ms later (the last change's
timer always fires). -/
def fetchPairsDebounced (delay : ℕ) : List ℕ → ℕ
  | [] => 0
  | [_] => 1
  | t :: t' :: rest =>
      (if t + delay ≤ t' then 1 else 0) + fetchPairsDebounced delay (t' :: rest)

/- Every consecutive gap of the schedule is shorter than `delay`. -/
def withinWindow (delay : ℕ) : List ℕ → Bool
  | [] => true
  | [_] => true
  | t :: t' :: rest => (t' < t + delay) && withinWindow delay (t' :: rest)

/-!
## Image resolution helper (ProductImage.js lines 8-47)
-/

structure ImageRef where
  image_url : String
deriving DecidableEq, Repr

/- The image-bearing fields of a product as `loadImages` reads them. -/
structure ImgProduct where
  image_url : Option String
  images : Option (List ImageRef)
deriving DecidableEq, Repr

/- ProductImage.js lines 12-17: `product.image_url ? [product.image_url] : []`,
then `if (product.images && product.images.length > 0) images.push(...)`. -/
def imageCandidates (p : ImgProduct) : List String :=
  (if truthyStr p.image_url then [p.image_url.getD ""] else []) ++
    (match p.images with
     | some l => if l.length > 0 then l.map (·.image_url) else []
     | none => [])

/- ProductImage.js lines 20-25: the sequential probe loop, with the outcome of
`checkImageExists` supplied as an oracle `ok`. -/
def probeLoop (ok : String → Bool) : List String → List String
  | [] => []
  | u :: rest => if ok u then u :: probeLoop ok rest else probeLoop ok rest

/- ProductImage.js lines 27-28: `setAllImages(availableImages)` and
`setMainImage(availableImages[0] || '/placeholder.jpg')`. -/
def mainImageOf (ok : String → Bool) (p : ImgProduct) : String :=
  match probeLoop ok (imageCandidates p) with
  | [] => "/placeholder.jpg"
  | u :: _ => if u = "" then "/placeholder.jpg" else u

/-!
## Gallery assembly (ProductGallery, part_002 lines 9-31)
-/

structure GalleryImage where
  url : String
  is_main : Bool
  size : String
deriving DecidableEq, Repr

/- part_002 lines 11-12: the size filter predicate. -/
def allowedSize (s : String) : Bool :=
  s == "big" || s == "original" || s == "516x688"

def galleryFiltered (images : List GalleryImage) : List GalleryImage :=
  images.filter (fun img => allowedSize img.size)

/- part_002 lines 13-18: `.sort` with comparator
`a.is_main ? -1 : b.is_main ? 1 : 0` — a stable main-first partition. -/
def gallerySorted (l : List GalleryImage) : List GalleryImage :=
  l.filter (·.is_main) ++ l.filter (fun i => !(i.is_main))

/- part_002 lines 21-23: prepend `{url: mainImage, is_main: true, size: 'big'}`
only when `mainImage` is truthy and absent from the filtered list. -/
def galleryResult (images : List GalleryImage) (mainImage : String) :
    List GalleryImage :=
  let fi := gallerySorted (galleryFiltered images)
  if mainImage != "" && !(fi.any (fun img => img.url == mainImage)) then
    ⟨mainImage, true, "big"⟩ :: fi
  else fi

/-!
## Detail fetch (ProductDetail.js lines 24-60)
-/

structure Product where
  id : ℕ
  name : String
  price : ℚ
  discount_price : Option ℚ
deriving DecidableEq, Repr

/- Outcome of `axios.get('/api/products/{id}/')`: success with a payload, or a
rejection carrying the HTTP status when the failure has a response. -/
inductive DetailOutcome where
  | ok (product : Product) (similar : List Product)
  | err (status : Option ℕ)
deriving DecidableEq, Repr

structure DetailState where
  product : Option Product
  error : Option String
deriving DecidableEq, Repr

/- ProductDetail.js lines 24-43: the `catch` block runs `setError('Товар не
найден')` for every rejection, without inspecting the status. -/
def fetchProductResult : DetailOutcome → DetailState
  | .ok p _ => { product := some p, error := none }
  | .err _ => { product := none, error := some "Товар не найден" }

/- ProductDetail.js lines 53-60: when `error || !product`, render the message
with the recovery link to `/products`; otherwise render the detail page. -/
def detailErrorView (st : DetailState) : Option (String × String) :=
  if st.error.isSome || st.product.isNone then
    some (st.error.getD "", "/products")
  else none

/-!
## Search form submission (SearchForm revision at ProductDetail.js lines 217-253)
-/

structure SearchFormState where
  searchQuery : String
  category : String
  limit : ℕ
  loading : Bool
  message : String
  error : String
deriving DecidableEq, Repr

inductive ParseOutcome where
  | success
  | failure (backendError : Option String)
deriving DecidableEq, Repr

/- States `handleSubmit` passes through on a non-empty query: while the POST
is in flight, and after it settles (the `finally` clears `loading`). -/
structure SubmitTrace where
  networkCalled : Bool
  during : SearchFormState
  final : SearchFormState
deriving DecidableEq, Repr

/- Lines 234-236: `setLoading(true); setError(''); setMessage('');`. -/
def duringSubmit (s : SearchFormState) : SearchFormState :=
  { s with loading := true, error := "", message := "" }

/- Lines 244-252: the success branch resets the fields, the catch branch keeps
them and surfaces the backend error or the generic fallback. -/
def afterSubmit (s : SearchFormState) (o : ParseOutcome) : SearchFormState :=
  match o with
  | .success =>
      { duringSubmit s with
        message := "Парсинг запущен успешно! Товары будут добавлены в базу данных.",
        searchQuery := "", category := "", limit := 10, loading := false }
  | .failure e =>
      { duringSubmit s with
        error := e.getD "Ошибка при запуске парсинга", loading := false }

/- Lines 225-253: the validation guard rejects a blank trimmed query without
calling the backend; otherwise the request runs through both phases. -/
def handleSubmit (s : SearchFormState) (o : ParseOutcome) : SubmitTrace :=
  if jsTrim s.searchQuery = "" then
    { networkCalled := false,
      during := { s with error := "Введите поисковый запрос" },
      final := { s with error := "Введите поисковый запрос" } }
  else
    { networkCalled := true, during := duringSubmit s, final := afterSubmit s o }

/- Lines 292-297: `disabled={loading}` on the submit button. -/
def submitDisabled (s : SearchFormState) : Bool := s.loading

/-!
## Theorems
-/

/-- C1, counterexample: with `discount_price = 0` (present and strictly less
than the price of 1), the rendered current price is the full price 1, not the
discount price 0 the claim prescribes — the JS guard treats `0` as absent. -/
theorem C1_zero_discount_counterexample :
    displayedCurrentPrice 1 (some 0) = 1 ∧
    specDisplayedPrice 1 (some 0) = 0 ∧ (1 : ℚ) ≠ 0 := by
  refine ⟨?_, ?_, by norm_num⟩ <;>
    simp [displayedCurrentPrice, specDisplayedPrice, showsDiscount, truthyNum]

/-- C1, amended: at every rendering site the displayed current price equals
`discount_price` when it is present, non-zero (JS-truthy) and strictly less
than `price`, else `price`; whenever the field is not `some 0` this agrees
with the spec's formula; and when the discount is shown the detail badge
equals `round((price - discount_price)/price*100)`. -/
theorem C1_displayed_price_amended (price d : ℚ) :
    (d ≠ 0 → d < price →
      displayedCurrentPrice price (some d) = d ∧
      discountPercent price (some d) = jsRound ((price - d) / price * 100)) ∧
    (¬(d ≠ 0 ∧ d < price) → displayedCurrentPrice price (some d) = price) ∧
    displayedCurrentPrice price none = price ∧
    (d ≠ 0 → displayedCurrentPrice price (some d) = specDisplayedPrice price (some d)) := by
  refine ⟨fun hd hlt => ?_, fun h => ?_, ?_, fun hd => ?_⟩
  · simp [displayedCurrentPrice, discountPercent, showsDiscount, truthyNum, hd, hlt]
  · by_cases hd : d = 0
    · simp [displayedCurrentPrice, showsDiscount, truthyNum, hd]
    · have hlt : ¬d < price := fun hc => h ⟨hd, hc⟩
      simp [displayedCurrentPrice, showsDiscount, truthyNum, hd, hlt]
  · simp [displayedCurrentPrice, showsDiscount, truthyNum]
  · by_cases hlt : d < price <;>
      simp [displayedCurrentPrice, specDisplayedPrice, showsDiscount, truthyNum, hd, hlt]

/-- C1 witness: a product at price 100 discounted to 80 renders 80 with a 20%
badge. -/
theorem C1_displayed_price_witness :
    displayedCurrentPrice 100 (some 80) = 80 ∧ discountPercent 100 (some 80) = 20 := by
  have h := (C1_displayed_price_amended 100 80).1 (by norm_num) (by norm_num)
  refine ⟨h.1, ?_⟩
  rw [h.2]
  norm_num [jsRound]

/-- C2, counterexample: with draft bounds min 10 / max 50, moving the price
min slider to 60 leaves `max_price` at 50 and caps `min_price` at 50 — the
claim's "max is clamped to the new min (60)" does not hold. -/
theorem C2_clamp_direction_counterexample :
    (priceSliderMinChange ⟨0, 100000⟩ (some 60)
        { initialFilters with min_price := 10, max_price := 50 }).min_price = 50 ∧
    (priceSliderMinChange ⟨0, 100000⟩ (some 60)
        { initialFilters with min_price := 10, max_price := 50 }).max_price = 50 ∧
    (50 : ℚ) ≠ 60 := by
  refine ⟨?_, ?_, by norm_num⟩ <;> norm_num [priceSliderMinChange, initialFilters]

lemma clampLe (a b : ℚ) : (if a > b then b else a) ≤ b := by
  split <;> simp_all [le_of_not_lt]

lemma clampGe (a b : ℚ) : b ≤ (if a < b then b else a) := by
  split <;> simp_all [le_of_not_lt]

/-- C2, amended: each slider interaction clamps the moved bound to the
opposing current bound and leaves the opposing bound unchanged, so
`min ≤ max` holds on the affected pair of the draft form state after every
numeric slider interaction. -/
theorem C2_slider_clamp_amended (g : PriceRange) (prev : ListFilters) (v : ℚ) :
    ((priceSliderMinChange g (some v) prev).min_price ≤
        (priceSliderMinChange g (some v) prev).max_price ∧
      (priceSliderMinChange g (some v) prev).max_price = prev.max_price ∧
      (v > prev.max_price →
        (priceSliderMinChange g (some v) prev).min_price = prev.max_price)) ∧
    ((priceSliderMaxChange g (some v) prev).min_price ≤
        (priceSliderMaxChange g (some v) prev).max_price ∧
      (priceSliderMaxChange g (some v) prev).min_price = prev.min_price ∧
      (v < prev.min_price →
        (priceSliderMaxChange g (some v) prev).max_price = prev.min_price)) ∧
    ((ratingSliderMinChange v prev).min_rating ≤
        (ratingSliderMinChange v prev).max_rating ∧
      (ratingSliderMinChange v prev).max_rating = prev.max_rating ∧
      (v > prev.max_rating →
        (ratingSliderMinChange v prev).min_rating = prev.max_rating)) ∧
    ((ratingSliderMaxChange v prev).min_rating ≤
        (ratingSliderMaxChange v prev).max_rating ∧
      (ratingSliderMaxChange v prev).min_rating = prev.min_rating ∧
      (v < prev.min_rating →
        (ratingSliderMaxChange v prev).max_rating = prev.min_rating)) := by
  exact ⟨⟨clampLe v prev.max_price, rfl, fun h => if_pos h⟩,
    ⟨clampGe v prev.min_price, rfl, fun h => if_pos h⟩,
    ⟨clampLe v prev.max_rating, rfl, fun h => if_pos h⟩,
    ⟨clampGe v prev.min_rating, rfl, fun h => if_pos h⟩⟩

/-- C2 witness: from min 10 / max 50 with the slider moved to 60, the handler
keeps max at 50 and sets min to 50, so min ≤ max. -/
theorem C2_slider_clamp_witness :
    (priceSliderMinChange ⟨0, 100000⟩ (some 60)
        { initialFilters with min_price := 10, max_price := 50 }).min_price = 50 ∧
    (priceSliderMinChange ⟨0, 100000⟩ (some 60)
        { initialFilters with min_price := 10, max_price := 50 }).min_price ≤
      (priceSliderMinChange ⟨0, 100000⟩ (some 60)
        { initialFilters with min_price := 10, max_price := 50 }).max_price := by
  have h := C2_slider_clamp_amended ⟨0, 100000⟩
    { initialFilters with min_price := 10, max_price := 50 } 60
  exact ⟨by rw [h.1.2.2 (by norm_num [initialFilters])], h.1.1⟩

/-- C3: after a product-list fetch, `globalPriceRange` is rewritten from the
response's `price_range` only when every one of the eight filter fields is
JS-falsy (no active filter value); whenever any field carries an active value,
or the response has no `price_range`, the global range is left unchanged. -/
theorem C3_global_range_guard (f : ListFilters) (pr : Option PriceRange)
    (g r : PriceRange) :
    (noActiveFilterValues f = false → updateGlobalPriceRange f pr g = g) ∧
    (noActiveFilterValues f = true → updateGlobalPriceRange f (some r) g = r) ∧
    (updateGlobalPriceRange f pr g ≠ g → noActiveFilterValues f = true) := by
  refine ⟨fun h => ?_, fun h => ?_, fun h => ?_⟩
  · cases pr <;> simp [updateGlobalPriceRange, h]
  · simp [updateGlobalPriceRange, h]
  · cases pr with
    | none => simp [updateGlobalPriceRange] at h
    | some r' =>
        by_cases hg : noActiveFilterValues f = true
        · exact hg
        · rw [Bool.not_eq_true] at hg
          simp [updateGlobalPriceRange, hg] at h

/-- C3 witness: with the category filter active the global range survives the
response untouched, and with all eight fields falsy it is overwritten by the
response's range. -/
theorem C3_global_range_guard_witness :
    updateGlobalPriceRange { initialFilters with category := "electronics" }
        (some ⟨5, 500⟩) ⟨0, 100000⟩ = ⟨0, 100000⟩ ∧
    updateGlobalPriceRange { initialFilters with max_price := 0, max_rating := 0 }
        (some ⟨5, 500⟩) ⟨0, 100000⟩ = ⟨5, 500⟩ := by
  constructor
  · exact (C3_global_range_guard { initialFilters with category := "electronics" }
      (some ⟨5, 500⟩) ⟨0, 100000⟩ ⟨5, 500⟩).1 (by decide)
  · exact (C3_global_range_guard { initialFilters with max_price := 0, max_rating := 0 }
      (some ⟨5, 500⟩) ⟨0, 100000⟩ ⟨5, 500⟩).2.1 (by decide)

/-- C9: re-applying the active sort key leaves the applied filter state equal
to what it was, and the sort-change handler is idempotent. -/
theorem C9_sort_change_idempotent (f : ListFilters) (s : String) :
    handleSortChange s (handleSortChange s f) = handleSortChange s f ∧
    (f.sort = s → handleSortChange s f = f) := by
  refine ⟨rfl, fun h => ?_⟩
  cases f
  cases h
  rfl

/-- C9 witness: clicking the already-active default sort key leaves the
initial applied filters unchanged. -/
theorem C9_sort_change_witness :
    handleSortChange "-created_at" initialFilters = initialFilters :=
  (C9_sort_change_idempotent initialFilters "-created_at").2 rfl

lemma probeLoop_eq_filter (ok : String → Bool) :
    ∀ l : List String, probeLoop ok l = l.filter ok
  | [] => rfl
  | u :: rest => by
      by_cases h : ok u = true <;>
        simp [probeLoop, List.filter_cons, h, probeLoop_eq_filter ok rest]

/-- C4: the candidate list puts the primary image reference first and the
secondary references after it in order; the probe loop keeps exactly the
candidates whose load probe succeeds, preserving the original order; when no
candidate succeeds the selected main image is the single fallback placeholder;
and on the spec's example (three candidates, the second failing) the resolved
list is the first and third in order. -/
theorem C4_image_resolution (ok : String → Bool) (p : ImgProduct) (u : String)
    (l : List ImageRef) :
    (u ≠ "" → imageCandidates ⟨some u, some l⟩ = u :: l.map (·.image_url)) ∧
    (∀ c, c ∈ probeLoop ok (imageCandidates p) ↔
      c ∈ imageCandidates p ∧ ok c = true) ∧
    (probeLoop ok (imageCandidates p)).Sublist (imageCandidates p) ∧
    (probeLoop ok (imageCandidates p) = [] → mainImageOf ok p = "/placeholder.jpg") ∧
    probeLoop (fun c => !(c == "u2"))
      (imageCandidates ⟨some "u1", some [⟨"u2"⟩, ⟨"u3"⟩]⟩) = ["u1", "u3"] := by
  refine ⟨fun hu => ?_, fun c => ?_, ?_, fun h => ?_, by decide⟩
  · cases l <;> simp [imageCandidates, truthyStr, hu]
  · rw [probeLoop_eq_filter]
    exact List.mem_filter
  · rw [probeLoop_eq_filter]
    exact List.filter_sublist _
  · simp [mainImageOf, h]

/-- C4 witness: with primary `u1` and secondaries `u2`, `u3` the candidates
are `[u1, u2, u3]`, and when every probe fails the selected image is the
placeholder. -/
theorem C4_image_resolution_witness :
    imageCandidates ⟨some "u1", some [⟨"u2"⟩, ⟨"u3"⟩]⟩ = ["u1", "u2", "u3"] ∧
    mainImageOf (fun _ => false) ⟨some "u1", some [⟨"u2"⟩, ⟨"u3"⟩]⟩ =
      "/placeholder.jpg" := by
  have h := C4_image_resolution (fun _ => false)
    ⟨some "u1", some [⟨"u2"⟩, ⟨"u3"⟩]⟩ "u1" [⟨"u2"⟩, ⟨"u3"⟩]
  refine ⟨?_, h.2.2.2.1 (by decide)⟩
  have h1 := h.1 (by decide)
  simpa using h1

/-- C5, counterexample: with the same URL `a` as both the primary image and a
secondary image reference, and every probe succeeding, the resolved list is
`[a, a]` — the helper performs no URL deduplication. -/
theorem C5_no_dedup_counterexample :
    probeLoop (fun _ => true) (imageCandidates ⟨some "a", some [⟨"a"⟩]⟩) = ["a", "a"] ∧
    ¬ (probeLoop (fun _ => true) (imageCandidates ⟨some "a", some [⟨"a"⟩]⟩)).Nodup := by
  decide

/-- C5, amended: the image resolution helper does not deduplicate by URL; the
only deduplication during gallery assembly is that `ProductGallery` prepends
its separately-passed main image only when that URL is absent from the
filtered image list. -/
theorem C5_gallery_main_dedup (images : List GalleryImage) (m : String) :
    (gallerySorted (galleryFiltered images)).any (fun img => img.url == m) = true →
    galleryResult images m = gallerySorted (galleryFiltered images) := by
  intro h
  simp [galleryResult, h]

/-- C5 witness: when the main-image URL `a` already occurs in the filtered
list, the gallery result is the filtered list itself — no duplicate entry. -/
theorem C5_gallery_main_dedup_witness :
    galleryResult [⟨"a", false, "big"⟩] "a" =
      gallerySorted (galleryFiltered [⟨"a", false, "big"⟩]) :=
  C5_gallery_main_dedup [⟨"a", false, "big"⟩] "a" (by decide)

lemma mem_gallerySorted_allowed {images : List GalleryImage} {img : GalleryImage}
    (h : img ∈ gallerySorted (galleryFiltered images)) :
    allowedSize img.size = true := by
  rcases List.mem_append.mp h with h' | h' <;>
    exact (List.mem_filter.mp (List.mem_filter.mp h').1).2

lemma galleryResult_allowed {images : List GalleryImage} {m : String}
    {img : GalleryImage} (h : img ∈ galleryResult images m) :
    allowedSize img.size = true := by
  simp only [galleryResult] at h
  split at h
  · rcases List.mem_cons.mp h with h' | h'
    · rw [h']
      rfl
    · exact mem_gallerySorted_allowed h'
  · exact mem_gallerySorted_allowed h

/-- C10: every image record in `ProductGallery`'s assembled list carries one
of the size tags `big`, `original` or `516x688`, and any input image with a
different size tag is excluded from the assembled list (hence from both the
main image and the thumbnail strip), regardless of loadability. -/
theorem C10_gallery_size_filter (images : List GalleryImage) (m : String)
    (img : GalleryImage) :
    (img ∈ galleryResult images m → allowedSize img.size = true) ∧
    (img ∈ images → allowedSize img.size = false → img ∉ galleryResult images m) := by
  refine ⟨fun h => galleryResult_allowed h, fun _ hbad hres => ?_⟩
  rw [galleryResult_allowed hres] at hbad
  simp at hbad

/-- C10 witness: an input image sized `small` is excluded from the assembled
gallery list, while the `big` tag is an allowed size. -/
theorem C10_gallery_size_filter_witness :
    allowedSize (⟨"y", true, "big"⟩ : GalleryImage).size = true ∧
    (⟨"x", false, "small"⟩ : GalleryImage) ∉
      galleryResult [⟨"x", false, "small"⟩] "" := by
  constructor
  · exact (C10_gallery_size_filter [⟨"y", true, "big"⟩] "" ⟨"y", true, "big"⟩).1
      (by decide)
  · exact (C10_gallery_size_filter [⟨"x", false, "small"⟩] "" ⟨"x", false, "small"⟩).2
      (by decide) (by decide)

/-- C6, counterexample: two filter edits 10 ms apart — well inside the 250 ms
window — trigger two fetch pairs in the part_003 catalog list revision (its
effect has no timer), not the single pair the claim requires; the debounced
ProductList.js revision issues one. -/
theorem C6_no_debounce_counterexample :
    fetchPairsImmediate [0, 10] = 2 ∧
    withinWindow debounceDelay [0, 10] = true ∧
    fetchPairsDebounced debounceDelay [0, 10] = 1 ∧ (2 : ℕ) ≠ 1 := by
  decide

/-- C6, amended: only the ProductList.js revision debounces — every change to
`[filters, page]` arms a 250 ms timer cancelled by the next change, so any
run of edits whose consecutive gaps are all below the delay collapses into
exactly one product-list/charts fetch pair; the part_003 revision fetches
immediately on every change. -/
theorem C6_debounce_collapse (t : ℕ) (rest : List ℕ) :
    withinWindow debounceDelay (t :: rest) = true →
    fetchPairsDebounced debounceDelay (t :: rest) = 1 := by
  induction rest generalizing t with
  | nil => intro _; rfl
  | cons t' r ih =>
      intro h
      simp only [withinWindow, Bool.and_eq_true, decide_eq_true_eq] at h
      have h2 := ih t' (by simpa [withinWindow] using h.2)
      simp [fetchPairsDebounced, Nat.not_le.mpr h.1, h2]

/-- C6 witness: three edits at 0, 100 and 200 ms collapse into exactly one
fetch pair under the debounced effect. -/
theorem C6_debounce_collapse_witness :
    fetchPairsDebounced debounceDelay [0, 100, 200] = 1 :=
  C6_debounce_collapse 0 [100, 200] (by decide)

/-- C7, counterexample: a 500-status failure of the detail lookup produces
exactly the same view state as a 404 — the not-found message — so generic
failures are not treated differently from not-found. -/
theorem C7_no_status_distinction_counterexample :
    fetchProductResult (.err (some 500)) = fetchProductResult (.err (some 404)) ∧
    (fetchProductResult (.err (some 500))).error = some "Товар не найден" :=
  ⟨rfl, rfl⟩

/-- C7, amended: every detail-lookup failure, whatever its status (404, other
HTTP errors, or a transport error with no status), sets the same "Товар не
найден" message and renders it with the recovery link back to the product
list; the caller does not distinguish not-found from generic failure. -/
theorem C7_uniform_failure_render (s : Option ℕ) :
    fetchProductResult (.err s) =
      { product := none, error := some "Товар не найден" } ∧
    detailErrorView (fetchProductResult (.err s)) =
      some ("Товар не найден", "/products") :=
  ⟨rfl, rfl⟩

/-- C8: submitting the search form with a non-empty trimmed query calls the
backend with the submit control disabled while the request is in flight and
re-enabled after it settles; on success the query, category and limit fields
are reset to their defaults and a success message is shown; on failure the
entered values are kept and the backend error message (or the generic
fallback) is shown. -/
theorem C8_submit_lifecycle (s : SearchFormState) (o : ParseOutcome)
    (hq : jsTrim s.searchQuery ≠ "") :
    (handleSubmit s o).networkCalled = true ∧
    submitDisabled (handleSubmit s o).during = true ∧
    submitDisabled (handleSubmit s o).final = false ∧
    (o = .success →
      (handleSubmit s o).final.searchQuery = "" ∧
      (handleSubmit s o).final.category = "" ∧
      (handleSubmit s o).final.limit = 10 ∧
      (handleSubmit s o).final.message ≠ "") ∧
    (∀ e, o = .failure e →
      (handleSubmit s o).final.searchQuery = s.searchQuery ∧
      (handleSubmit s o).final.category = s.category ∧
      (handleSubmit s o).final.limit = s.limit ∧
      (handleSubmit s o).final.error = e.getD "Ошибка при запуске парсинга") := by
  have hS : handleSubmit s o =
      { networkCalled := true, during := duringSubmit s, final := afterSubmit s o } := by
    rw [handleSubmit, if_neg hq]
  rw [hS]
  refine ⟨rfl, rfl, ?_, fun ho => ?_, fun e' ho => ?_⟩
  · cases o <;> rfl
  · subst ho
    refine ⟨rfl, rfl, rfl, ?_⟩
    show ("Парсинг запущен успешно! Товары будут добавлены в базу данных." : String) ≠ ""
    decide
  · subst ho
    exact ⟨rfl, rfl, rfl, rfl⟩

/-- C8 witness: submitting the query "iPhone 15" with a failing backend keeps
the form values, reports the fallback error, and toggles the submit control
disabled during the request and enabled after. -/
theorem C8_submit_lifecycle_witness :
    submitDisabled (handleSubmit ⟨"iPhone 15", "", 10, false, "", ""⟩
      (.failure none)).during = true ∧
    submitDisabled (handleSubmit ⟨"iPhone 15", "", 10, false, "", ""⟩
      (.failure none)).final = false ∧
    (handleSubmit ⟨"iPhone 15", "", 10, false, "", ""⟩
      (.failure none)).final.searchQuery = "iPhone 15" ∧
    (handleSubmit ⟨"iPhone 15", "", 10, false, "", ""⟩
      (.failure none)).final.error = "Ошибка при запуске парсинга" := by
  have h := C8_submit_lifecycle ⟨"iPhone 15", "", 10, false, "", ""⟩
    (.failure none) (by decide)
  exact ⟨h.2.1, h.2.2.1, (h.2.2.2.2 none rfl).1, (h.2.2.2.2 none rfl).2.2.2⟩
